import Mathlib

/-!
# Verification of the print-service dispatcher (`src/index.js`)

A shallow embedding of the `POST /print` Express handler of the
Node.js print service.  The handler is pure apart from its interaction
with the filesystem, the network fetch, the OS spooler, a raw TCP
socket and an IPP client; we model those interactions with an explicit
environment (`Env`, the oracle answering each external call) and an
effect trace (`List Effect`, the externally visible I/O actions in
program order).  The handler itself (`handlePrint`) is translated
branch by branch from the source.

Machine integers do not arise: payloads are byte lists (`List Nat`,
each `< 256`), and JavaScript strings are Lean `String`s.
-/

namespace PrintSvc

/-- JavaScript truthiness of an optional string request field:
`undefined` (absent) and the empty string are falsy. -/
def truthy : Option String → Bool
  | none => false
  | some s => !s.isEmpty

/-- The characters a JavaScript regex `.` does not match
(line terminators: LF, CR, LS, PS). -/
def isLineTerm (c : Char) : Bool :=
  c == '\n' || c == '\r' || c.toNat == 0x2028 || c.toNat == 0x2029

/-- No line terminator occurs in the character list. -/
def noLT (l : List Char) : Bool := l.all (fun c => !isLineTerm c)

/-- Value of one base64 character under Node's lenient decoding table
(`Buffer.from(s, "base64")`): the standard alphabet plus the url-safe
variants `-` and `_`; every other character (including `=`) has no
value and is skipped. -/
def dC (c : Char) : Option Nat :=
  if 'A' ≤ c ∧ c ≤ 'Z' then some (c.toNat - 65)
  else if 'a' ≤ c ∧ c ≤ 'z' then some (c.toNat - 97 + 26)
  else if '0' ≤ c ∧ c ≤ '9' then some (c.toNat - 48 + 52)
  else if c = '+' ∨ c = '-' then some 62
  else if c = '/' ∨ c = '_' then some 63
  else none

/-- The base64 alphabet character for a 6-bit value
(`Buffer.toString("base64")` uses the standard alphabet). -/
def eC (n : Nat) : Char :=
  if n < 26 then Char.ofNat (65 + n)
  else if n < 52 then Char.ofNat (97 + (n - 26))
  else if n < 62 then Char.ofNat (48 + (n - 52))
  else if n = 62 then '+'
  else '/'

/-- Reassemble bytes from the surviving 6-bit groups, four at a time,
the way Node's decoder does: a trailing group of two sextets yields one
byte, three sextets yield two bytes, a lone sextet is dropped. -/
def b64dec : List Nat → List Nat
  | s1 :: s2 :: s3 :: s4 :: rest =>
      (s1 * 4 + s2 / 16) :: ((s2 % 16) * 16 + s3 / 4) :: ((s3 % 4) * 64 + s4) :: b64dec rest
  | [s1, s2] => [s1 * 4 + s2 / 16]
  | [s1, s2, s3] => [s1 * 4 + s2 / 16, (s2 % 16) * 16 + s3 / 4]
  | _ => []

/-- `Buffer.from(s, "base64")`: skip characters with no base64 value,
then reassemble bytes.  Total: decoding never throws in Node. -/
def nodeDecode (l : List Char) : List Nat := b64dec (l.filterMap dC)

/-- `Buffer.toString("base64")`: canonical padded base64 encoding of a
byte list. -/
def b64enc : List Nat → List Char
  | a :: b :: c :: rest =>
      eC (a / 4) :: eC ((a % 4) * 16 + b / 16) :: eC ((b % 16) * 4 + c / 64) ::
        eC (c % 64) :: b64enc rest
  | [a] => [eC (a / 4), eC ((a % 4) * 16), '=', '=']
  | [a, b] => [eC (a / 4), eC ((a % 4) * 16 + b / 16), eC ((b % 16) * 4), '=']
  | [] => []

/-- The JavaScript regex match `s.match(/base64,(.*)$/)` used on
`fileBase64` in the `os` and `ipp` branches (src/index.js lines 82 and
172), on the character list of `s`: the leftmost occurrence of the
literal `base64,` whose entire remaining suffix is free of line
terminators (`.` does not cross line terminators and `$` is the end of
the string); the capture is that suffix. -/
def findB64 : List Char → Option (List Char)
  | [] => none
  | c :: cs =>
    if (c :: cs).take 7 = "base64,".data ∧ noLT ((c :: cs).drop 7) = true then
      some ((c :: cs).drop 7)
    else findB64 cs

/-- Split a character list around the LAST occurrence of the literal
`;base64,` (the greedy `.*` of `/^data:.*;base64,(.*)$/` commits to the
rightmost occurrence). -/
def lastSplit : List Char → Option (List Char × List Char)
  | [] => none
  | c :: cs =>
    match lastSplit cs with
    | some (a, b) => some (c :: a, b)
    | none =>
      if (c :: cs).take 8 = ";base64,".data then some ([], (c :: cs).drop 8)
      else none

/-- The JavaScript regex match `raw.match(/^data:.*;base64,(.*)$/)`
used in the `tcp` branch (src/index.js line 141): the string must start
with `data:`, the rest must split at an occurrence of `;base64,` with
both sides free of line terminators, and the capture is the part after
the last such occurrence. -/
def tcpMatch (l : List Char) : Option (List Char) :=
  if l.take 5 = "data:".data then
    match lastSplit (l.drop 5) with
    | some (a, b) => if noLT a = true ∧ noLT b = true then some b else none
    | none => none
  else none

/-- What `client.write` is handed in the `tcp` branch: decoded bytes
when the raw field matched the inline pattern, the literal string
otherwise. -/
inductive TcpPayload
  | bytes (data : List Nat)
  | literal (s : String)
deriving Repr, DecidableEq

/-- Externally visible I/O actions of one dispatch, in program order. -/
inductive Effect
  | mkdirTmp
  | fileWrite (path : String) (contents : List Nat)
  | fileUnlink (path : String) (ok : Bool)
  | osPrint (path : String) (printer : Option String)
  | fetch (url : String)
  | sockConnect (host : String) (port : Nat)
  | sockWrite (payload : TcpPayload)
  | sockEnd
  | ippExecute (url : String) (doc : List Nat)
deriving Repr, DecidableEq

/-- Events emitted by the TCP socket, in the order they fire. -/
inductive SockEv
  | connected
  | closed
  | errored (msg : String)
deriving Repr, DecidableEq

/-- The oracle's answer to the single `fetch` a dispatch may issue:
either the promise rejects (network-level error) or a response arrives
with an `ok` flag, a `statusText` and a body. -/
inductive FetchRes
  | netErr (msg : String)
  | resp (ok : Bool) (statusText : String) (body : List Nat)
deriving Repr, DecidableEq

/-- The environment of one dispatch: `Date.now()`, the fetch outcome,
whether `pdf-to-printer`'s `print` throws, whether `fs.unlinkSync`
succeeds, the socket's event sequence, and whether the IPP execute
callback reports an error. -/
structure Env where
  now : Nat
  fetchRes : FetchRes
  printErr : Option String
  unlinkOk : Bool
  sockEvs : List SockEv
  ippErr : Option String
deriving Repr, DecidableEq

/-- The destructured fields of `req.body`; `none` models `undefined`. -/
structure Req where
  mode : Option String := none
  printerName : Option String := none
  printerIp : Option String := none
  fileUrl : Option String := none
  fileBase64 : Option String := none
  raw : Option String := none
deriving Repr, DecidableEq

/-- The JSON body (plus HTTP status) the handler responds with. -/
structure Resp where
  status : Nat
  success : Bool
  error : Option String := none
  mode : Option String := none
  message : Option String := none
deriving Repr, DecidableEq

/-- How the `try` block ends: an explicit `return res...`, a thrown
error (caught at line 208), or an await that never settles. -/
inductive BodyRes
  | ret (r : Resp)
  | thrown (msg : String)
  | hang
deriving Repr, DecidableEq

/-- A `res.status(st).json({success:false, error: msg})` response. -/
def errResp (st : Nat) (msg : String) : Resp :=
  { status := st, success := false, error := some msg }

/-- The temporary file path of src/index.js lines 88 and 98:
`path.join(__dirname, "tmp", ` ``print-${Date.now()}.pdf`` `)`,
with the process-constant `__dirname` elided. -/
def tmpPath (now : Nat) : String := "tmp/print-" ++ Nat.repr now ++ ".pdf"

/-- The promise of src/index.js lines 137-149 run against the socket's
event sequence: the `connect` callback writes the payload in full and
half-closes; the first `close` event resolves, the first `error` event
rejects, and with neither the promise never settles (`none`). -/
def runSock (p : TcpPayload) : List SockEv → List Effect × Option (Except String Unit)
  | [] => ([], none)
  | .connected :: rest =>
    let r := runSock p rest
    (.sockWrite p :: .sockEnd :: r.1, r.2)
  | .closed :: _ => ([], some (.ok ()))
  | .errored m :: _ => ([], some (.error m))

/-- Lines 140-143: decode the raw field in place if it matches the
inline pattern, else pass it through as literal bytes. -/
def decodeRaw (s : String) : TcpPayload :=
  match tcpMatch s.data with
  | some b => .bytes (nodeDecode b)
  | none => .literal s

/-- Lines 103-120: the OS print call on the temporary file, the
best-effort cleanup (only on the non-throwing path) and the success
response. -/
def osPrintPhase (req : Req) (env : Env) (fp : String) (tr : List Effect) :
    List Effect × BodyRes :=
  let tr2 := tr ++ [.osPrint fp (if truthy req.printerName then req.printerName else none)]
  match env.printErr with
  | some m => (tr2, .thrown m)
  | none =>
    (tr2 ++ [.fileUnlink fp env.unlinkOk],
     .ret { status := 200, success := true, mode := some "os",
            message := some "Sent to OS print spooler" })

/-- Lines 71-121: the `mode === "os"` branch. -/
def osBody (req : Req) (env : Env) : List Effect × BodyRes :=
  if !truthy req.fileUrl && !truthy req.fileBase64 then
    ([], .ret (errResp 400 "fileUrl or fileBase64 required for mode=os"))
  else if truthy req.fileBase64 then
    match findB64 (req.fileBase64.getD "").data with
    | none => ([], .ret (errResp 400 "Invalid fileBase64 payload"))
    | some rest =>
      let fp := tmpPath env.now
      osPrintPhase req env fp [.mkdirTmp, .fileWrite fp (nodeDecode rest)]
  else
    let url := req.fileUrl.getD ""
    match env.fetchRes with
    | .netErr m => ([.fetch url], .thrown m)
    | .resp ok st body =>
      if !ok then ([.fetch url], .thrown ("Failed to fetch file: " ++ st))
      else
        let fp := tmpPath env.now
        osPrintPhase req env fp [.fetch url, .mkdirTmp, .fileWrite fp body]

/-- Lines 123-156: the `mode === "tcp"` branch. -/
def tcpBody (req : Req) (env : Env) : List Effect × BodyRes :=
  if !truthy req.printerIp then
    ([], .ret (errResp 400 "printerIp required for mode=tcp"))
  else if !truthy req.raw then
    ([], .ret (errResp 400 "raw data required for tcp mode"))
  else
    let ip := req.printerIp.getD ""
    let r := runSock (decodeRaw (req.raw.getD "")) env.sockEvs
    let tr := Effect.sockConnect ip 9100 :: r.1
    match r.2 with
    | none => (tr, .hang)
    | some (.ok _) =>
      (tr, .ret { status := 200, success := true, mode := some "tcp",
                  message := some "Raw TCP sent to printer" })
    | some (.error m) => (tr, .thrown m)

/-- Lines 185-204: build the IPP printer URL and execute one
`Print-Job` exchange. -/
def ippSend (req : Req) (env : Env) (buf : List Nat) (tr : List Effect) :
    List Effect × BodyRes :=
  let url := "http://" ++ req.printerIp.getD "" ++ ":631/ipp/print"
  let tr2 := tr ++ [.ippExecute url buf]
  match env.ippErr with
  | some m => (tr2, .thrown m)
  | none =>
    (tr2, .ret { status := 200, success := true, mode := some "ipp",
                 message := some "IPP job sent" })

/-- Lines 158-205: the `mode === "ipp"` branch. -/
def ippBody (req : Req) (env : Env) : List Effect × BodyRes :=
  if !truthy req.printerIp then
    ([], .ret (errResp 400 "printerIp required for mode=ipp"))
  else if !truthy req.fileUrl && !truthy req.fileBase64 then
    ([], .ret (errResp 400 "fileUrl or fileBase64 required for ipp"))
  else if truthy req.fileBase64 then
    match findB64 (req.fileBase64.getD "").data with
    | none => ([], .ret (errResp 400 "Invalid fileBase64"))
    | some rest => ippSend req env (nodeDecode rest) []
  else
    let url := req.fileUrl.getD ""
    match env.fetchRes with
    | .netErr m => ([.fetch url], .thrown m)
    | .resp ok _ body =>
      if !ok then ([.fetch url], .thrown "Failed to fetch fileUrl")
      else ippSend req env body [.fetch url]

/-- Lines 60-207: the `try` block of the handler, with the JavaScript
destructuring default `mode = "os"`. -/
def printBody (req : Req) (env : Env) : List Effect × BodyRes :=
  let mode := req.mode.getD "os"
  if mode = "os" then osBody req env
  else if mode = "tcp" then tcpBody req env
  else if mode = "ipp" then ippBody req env
  else ([], .ret (errResp 400 "Unsupported mode"))

/-- The whole `POST /print` handler: the `try` block plus the `catch`
of lines 208-211, which turns any thrown error into a 500 response
with the error's message.  The response is `none` exactly when an
await inside the body never settles. -/
def handlePrint (req : Req) (env : Env) : List Effect × Option Resp :=
  match printBody req env with
  | (tr, .ret r) => (tr, some r)
  | (tr, .thrown m) => (tr, some (errResp 500 m))
  | (tr, .hang) => (tr, none)

/-- Is the effect a temporary-file write? -/
def isWrite : Effect → Bool
  | .fileWrite _ _ => true
  | _ => false

/-- Is the effect an HTTP fetch? -/
def isFetch : Effect → Bool
  | .fetch _ => true
  | _ => false

/-- Is the effect a TCP connect? -/
def isConn : Effect → Bool
  | .sockConnect _ _ => true
  | _ => false

/-- Is the effect an IPP exchange? -/
def isIpp : Effect → Bool
  | .ippExecute _ _ => true
  | _ => false

/-- Replay a trace against an initially absent file `p`: a write
creates it, a successful unlink removes it.  `true` means the file is
on the filesystem after the dispatch. -/
def existsAfter (p : String) (tr : List Effect) : Bool :=
  tr.foldl
    (fun st e =>
      match e with
      | .fileWrite q _ => if q = p then true else st
      | .fileUnlink q ok => if q = p then (if ok then false else st) else st
      | _ => st)
    false

/-- The decimal digit characters of `n`, most significant first: the
specification of what `Nat.toDigitsCore` computes. -/
def repChars (n : Nat) : List Char :=
  if _ : n < 10 then [Nat.digitChar n]
  else repChars (n / 10) ++ [Nat.digitChar (n % 10)]
decreasing_by exact Nat.div_lt_self (by omega) (by omega)

/-- Read a decimal digit string back into a number (used to invert
`Nat.repr`). -/
def parseDec (l : List Char) : Nat :=
  l.foldl (fun acc c => acc * 10 + (c.toNat - 48)) 0

/-- An environment in which every external call succeeds (used to
instantiate universally quantified results at concrete inputs). -/
def envOk : Env :=
  { now := 0, fetchRes := .resp true "OK" [], printErr := none,
    unlinkOk := true, sockEvs := [], ippErr := none }

end PrintSvc

namespace PrintSvc

/-! ## Helper lemmas -/

theorem runSock_write_eq (p : TcpPayload) :
    ∀ evs q, Effect.sockWrite q ∈ (runSock p evs).1 → q = p := by
  intro evs
  induction evs with
  | nil => intro q h; simp [runSock] at h
  | cons e rest ih =>
    intro q h
    cases e with
    | connected =>
      simp only [runSock, List.mem_cons] at h
      rcases h with h | h | h
      · exact (Effect.sockWrite.injEq _ _).mp h
      · exact absurd h (by simp)
      · exact ih q h
    | closed => simp [runSock] at h
    | errored m => simp [runSock] at h

theorem runSock_no_conn (p : TcpPayload) :
    ∀ evs e, e ∈ (runSock p evs).1 → isConn e = false := by
  intro evs
  induction evs with
  | nil => intro e h; simp [runSock] at h
  | cons ev rest ih =>
    intro e h
    cases ev with
    | connected =>
      simp only [runSock, List.mem_cons] at h
      rcases h with h | h | h
      · subst h; rfl
      · subst h; rfl
      · exact ih e h
    | closed => simp [runSock] at h
    | errored m => simp [runSock] at h

theorem runSock_snd_conn (p : TcpPayload) (pre rest : List SockEv)
    (h : ∀ e ∈ pre, e = SockEv.connected) :
    (runSock p (pre ++ rest)).2 = (runSock p rest).2 := by
  induction pre with
  | nil => rfl
  | cons e es ih =>
    have he : e = SockEv.connected := h e (List.mem_cons_self e es)
    subst he
    simp only [List.cons_append, runSock]
    exact ih (fun x hx => h x (List.mem_cons_of_mem _ hx))

theorem runSock_ok_closed (p : TcpPayload) :
    ∀ evs, (runSock p evs).2 = some (.ok ()) →
      ∃ pre rest, evs = pre ++ SockEv.closed :: rest
        ∧ ∀ e ∈ pre, e = SockEv.connected := by
  intro evs
  induction evs with
  | nil => intro h; simp [runSock] at h
  | cons ev rest ih =>
    intro h
    cases ev with
    | connected =>
      have h2 : (runSock p rest).2 = some (.ok ()) := by
        simpa [runSock] using h
      obtain ⟨pre, r2, he, hall⟩ := ih h2
      refine ⟨SockEv.connected :: pre, r2, by simp [he], ?_⟩
      intro e hmem
      rcases List.mem_cons.mp hmem with h3 | h3
      · exact h3
      · exact hall e h3
    | closed => exact ⟨[], rest, rfl, by simp⟩
    | errored m => simp [runSock] at h

end PrintSvc

namespace PrintSvc

/-! ## Claims -/

/-- C2: a job missing a field required by its declared mode (OS without
any document source; RAW_SOCKET without `printerIp` or without `raw`;
IPP without `printerIp` or without any document source) is rejected
with a 400 validation response, and the dispatch performs no network or
file I/O at all (empty effect trace). -/
theorem missing_field_no_io (req : Req) (env : Env)
    (h : (req.mode.getD "os" = "os"
            ∧ truthy req.fileUrl = false ∧ truthy req.fileBase64 = false)
       ∨ (req.mode.getD "os" = "tcp"
            ∧ (truthy req.printerIp = false ∨ truthy req.raw = false))
       ∨ (req.mode.getD "os" = "ipp"
            ∧ (truthy req.printerIp = false
               ∨ (truthy req.fileUrl = false ∧ truthy req.fileBase64 = false)))) :
    (handlePrint req env).1 = [] ∧
      ∃ r, (handlePrint req env).2 = some r
        ∧ r.status = 400 ∧ r.success = false ∧ r.error.isSome = true := by
  rcases h with ⟨hm, hu, hb⟩ | ⟨hm, h2⟩ | ⟨hm, h2⟩
  · simp [handlePrint, printBody, hm, osBody, hu, hb, errResp]
  · rcases h2 with hip | hraw
    · simp [handlePrint, printBody, hm, tcpBody, hip, errResp]
    · by_cases hip : truthy req.printerIp
      · simp [handlePrint, printBody, hm, tcpBody, hip, hraw, errResp]
      · simp [handlePrint, printBody, hm, tcpBody,
          (Bool.not_eq_true _).mp hip, errResp]
  · rcases h2 with hip | ⟨hu, hb⟩
    · simp [handlePrint, printBody, hm, ippBody, hip, errResp]
    · by_cases hip : truthy req.printerIp
      · simp [handlePrint, printBody, hm, ippBody, hip, hu, hb, errResp]
      · simp [handlePrint, printBody, hm, ippBody,
          (Bool.not_eq_true _).mp hip, errResp]

/-- Witness for C2 at the spec's concrete scenario 2: mode `tcp`,
`printerIp` present, `raw` absent. -/
theorem missing_field_no_io_witness :
    (({ mode := some "tcp", printerIp := some "10.0.0.5" } : Req).mode.getD "os" = "tcp"
      ∧ truthy ({ mode := some "tcp", printerIp := some "10.0.0.5" } : Req).raw = false) ∧
    ((handlePrint { mode := some "tcp", printerIp := some "10.0.0.5" }
        { now := 0, fetchRes := .resp true "OK" [], printErr := none,
          unlinkOk := true, sockEvs := [], ippErr := none }).1 = [] ∧
      ∃ r, (handlePrint { mode := some "tcp", printerIp := some "10.0.0.5" }
        { now := 0, fetchRes := .resp true "OK" [], printErr := none,
          unlinkOk := true, sockEvs := [], ippErr := none }).2 = some r
        ∧ r.status = 400 ∧ r.success = false ∧ r.error.isSome = true) :=
  ⟨⟨rfl, rfl⟩,
   missing_field_no_io _ _ (Or.inr (Or.inl ⟨rfl, Or.inr rfl⟩))⟩

/-- C9: when both `fileBase64` and `fileUrl` are present (truthy) in an
OS-mode or IPP-mode job, `fileBase64` wins: no fetch is ever issued,
and the payload the driver receives is the one decoded from
`fileBase64` (the temporary-file write in OS mode, the IPP document in
IPP mode). -/
theorem base64_precedence (req : Req) (env : Env)
    (hb : truthy req.fileBase64 = true)
    (hm : req.mode.getD "os" = "os" ∨ req.mode.getD "os" = "ipp") :
    ((handlePrint req env).1.all (fun e => !isFetch e) = true) ∧
    (req.mode.getD "os" = "os" →
      ∀ rest, findB64 (req.fileBase64.getD "").data = some rest →
        Effect.fileWrite (tmpPath env.now) (nodeDecode rest) ∈ (handlePrint req env).1) ∧
    (req.mode.getD "os" = "ipp" → truthy req.printerIp = true →
      ∀ rest, findB64 (req.fileBase64.getD "").data = some rest →
        Effect.ippExecute ("http://" ++ req.printerIp.getD "" ++ ":631/ipp/print")
          (nodeDecode rest) ∈ (handlePrint req env).1) := by
  rcases hm with hm | hm
  · refine ⟨?_, ?_, ?_⟩
    · rcases hfind : findB64 (req.fileBase64.getD "").data with _ | rest
      · simp [handlePrint, printBody, hm, osBody, hb, hfind]
      · cases hp : env.printErr with
        | none =>
          simp [handlePrint, printBody, hm, osBody, hb, hfind, osPrintPhase, hp,
            isFetch]
        | some m =>
          simp [handlePrint, printBody, hm, osBody, hb, hfind, osPrintPhase, hp,
            isFetch]
    · intro _ rest hfind
      cases hp : env.printErr with
      | none =>
        simp [handlePrint, printBody, hm, osBody, hb, hfind, osPrintPhase, hp]
      | some m =>
        simp [handlePrint, printBody, hm, osBody, hb, hfind, osPrintPhase, hp]
    · intro hm2 _ _ _
      rw [hm] at hm2
      exact absurd hm2 (by decide)
  · refine ⟨?_, ?_, ?_⟩
    · by_cases hip : truthy req.printerIp
      · rcases hfind : findB64 (req.fileBase64.getD "").data with _ | rest
        · simp [handlePrint, printBody, hm, ippBody, hb, hip, hfind]
        · cases hi : env.ippErr with
          | none =>
            simp [handlePrint, printBody, hm, ippBody, hb, hip, hfind, ippSend, hi,
              isFetch]
          | some m =>
            simp [handlePrint, printBody, hm, ippBody, hb, hip, hfind, ippSend, hi,
              isFetch]
      · simp [handlePrint, printBody, hm, ippBody, (Bool.not_eq_true _).mp hip]
    · intro hm2 _ _
      rw [hm] at hm2
      exact absurd hm2 (by decide)
    · intro _ hip rest hfind
      cases hi : env.ippErr with
      | none =>
        simp [handlePrint, printBody, hm, ippBody, hb, hip, hfind, ippSend, hi]
      | some m =>
        simp [handlePrint, printBody, hm, ippBody, hb, hip, hfind, ippSend, hi]

/-- Witness for C9: OS-mode job with both sources present decodes the
inline payload and never fetches. -/
theorem base64_precedence_witness :
    (truthy (Req.mk (some "os") none none (some "http://x/y.pdf")
        (some "data:application/pdf;base64,JVBERi0x") none).fileBase64 = true) ∧
    ((handlePrint (Req.mk (some "os") none none (some "http://x/y.pdf")
        (some "data:application/pdf;base64,JVBERi0x") none) envOk).1.all
      (fun e => !isFetch e) = true) :=
  ⟨rfl,
   (base64_precedence (Req.mk (some "os") none none (some "http://x/y.pdf")
      (some "data:application/pdf;base64,JVBERi0x") none) envOk
      rfl (Or.inl rfl)).1⟩

/-- C10: an OS-mode job that resolves its document by URL creates its
temporary file only after a successful fetch: when the fetch fails
(network error or non-success status) the trace is just the fetch —
no file was written — and the dispatch fails with a 500 response. -/
theorem os_fetch_fail_no_tmpfile (req : Req) (env : Env)
    (hm : req.mode.getD "os" = "os")
    (hb : truthy req.fileBase64 = false) (hu : truthy req.fileUrl = true)
    (hf : (∃ m, env.fetchRes = .netErr m)
        ∨ (∃ st body, env.fetchRes = .resp false st body)) :
    (handlePrint req env).1 = [.fetch (req.fileUrl.getD "")] ∧
      ∃ r, (handlePrint req env).2 = some r ∧ r.status = 500 ∧ r.success = false := by
  rcases hf with ⟨m, hf⟩ | ⟨st, body, hf⟩
  · simp [handlePrint, printBody, hm, osBody, hb, hu, hf, errResp]
  · simp [handlePrint, printBody, hm, osBody, hb, hu, hf, errResp]

/-- Witness for C10: the fetch answers a non-success status and no
temp file is written. -/
theorem os_fetch_fail_no_tmpfile_witness :
    (truthy (Req.mk (some "os") none none (some "http://bad.example/x.pdf")
        none none).fileBase64 = false) ∧
    ((handlePrint (Req.mk (some "os") none none (some "http://bad.example/x.pdf")
          none none)
        (Env.mk 3 (.resp false "Not Found" []) none true [] none)).1
      = [.fetch "http://bad.example/x.pdf"] ∧
      ∃ r, (handlePrint (Req.mk (some "os") none none (some "http://bad.example/x.pdf")
          none none)
        (Env.mk 3 (.resp false "Not Found" []) none true [] none)).2 = some r
        ∧ r.status = 500 ∧ r.success = false) :=
  ⟨rfl,
   os_fetch_fail_no_tmpfile _ _ rfl rfl rfl (Or.inr ⟨"Not Found", [], rfl⟩)⟩

/-- C5: in a RAW_SOCKET (tcp) job with both fields present, the raw
field is decoded in place: every byte buffer handed to `client.write`
is `decodeRaw raw` — the decoded base64 body when the inline pattern
matches, the literal string otherwise — and the dispatch never rejects
the raw field as an encoding error (no 400 response is possible). -/
theorem tcp_raw_passthrough (req : Req) (env : Env)
    (hm : req.mode.getD "os" = "tcp")
    (hip : truthy req.printerIp = true)
    (hraw : truthy req.raw = true) :
    (∀ r, (handlePrint req env).2 = some r → r.status ≠ 400) ∧
    (∀ p, Effect.sockWrite p ∈ (handlePrint req env).1 →
      p = decodeRaw (req.raw.getD "")) ∧
    (tcpMatch (req.raw.getD "").data = none →
      decodeRaw (req.raw.getD "") = .literal (req.raw.getD "")) ∧
    (∀ b, tcpMatch (req.raw.getD "").data = some b →
      decodeRaw (req.raw.getD "") = .bytes (nodeDecode b)) := by
  refine ⟨?_, ?_, ?_, ?_⟩
  · intro r hr
    rcases ho : (runSock (decodeRaw (req.raw.getD "")) env.sockEvs).2 with _ | o
    · simp [handlePrint, printBody, hm, tcpBody, hip, hraw, ho] at hr
    · cases o with
      | ok u =>
        simp [handlePrint, printBody, hm, tcpBody, hip, hraw, ho] at hr
        rw [← hr]
        decide
      | error m =>
        simp [handlePrint, printBody, hm, tcpBody, hip, hraw, ho] at hr
        rw [← hr]
        simp [errResp]
  · intro p hp
    have htr : (handlePrint req env).1
        = Effect.sockConnect (req.printerIp.getD "") 9100
          :: (runSock (decodeRaw (req.raw.getD "")) env.sockEvs).1 := by
      rcases ho : (runSock (decodeRaw (req.raw.getD "")) env.sockEvs).2 with _ | o
      · simp [handlePrint, printBody, hm, tcpBody, hip, hraw, ho]
      · cases o with
        | ok u => simp [handlePrint, printBody, hm, tcpBody, hip, hraw, ho]
        | error m => simp [handlePrint, printBody, hm, tcpBody, hip, hraw, ho]
    rw [htr] at hp
    rcases List.mem_cons.mp hp with h | h
    · exact absurd h (by simp)
    · exact runSock_write_eq _ _ _ h
  · intro h
    simp [decodeRaw, h]
  · intro b h
    simp [decodeRaw, h]

/-- Witness for C5: a literal raw command string is passed through
unchanged and written to the socket. -/
theorem tcp_raw_passthrough_witness :
    ((Req.mk (some "tcp") none (some "10.0.0.5") none none
        (some "TEST")).mode.getD "os" = "tcp") ∧
    (tcpMatch ((Req.mk (some "tcp") none (some "10.0.0.5") none none
        (some "TEST")).raw.getD "").data = none →
      decodeRaw ((Req.mk (some "tcp") none (some "10.0.0.5") none none
        (some "TEST")).raw.getD "") = .literal ((Req.mk (some "tcp") none
          (some "10.0.0.5") none none (some "TEST")).raw.getD "")) :=
  ⟨rfl,
   (tcp_raw_passthrough (Req.mk (some "tcp") none (some "10.0.0.5") none none
      (some "TEST"))
     (Env.mk 0 (.resp true "OK" []) none true [.connected, .closed] none)
     rfl rfl rfl).2.2.1⟩

/-- C7: a RAW_SOCKET job with both fields present opens exactly one
TCP connection, to the given host on port 9100; once connected it
writes the whole (decoded) buffer in one write and half-closes
(`end`); the dispatch reports success exactly when the socket's first
terminal event is the peer closing, and any connect/write/reset fault
(an `error` event) becomes one caught error — a 500 response with the
fault's message — never an unhandled fault. -/
theorem tcp_socket_exchange (req : Req) (env : Env)
    (hm : req.mode.getD "os" = "tcp")
    (hip : truthy req.printerIp = true)
    (hraw : truthy req.raw = true) :
    ((handlePrint req env).1.countP (fun e => isConn e) = 1) ∧
    ((handlePrint req env).1.head?
      = some (Effect.sockConnect (req.printerIp.getD "") 9100)) ∧
    (∀ rest, env.sockEvs = SockEv.connected :: rest →
      (handlePrint req env).1
        = Effect.sockConnect (req.printerIp.getD "") 9100
          :: Effect.sockWrite (decodeRaw (req.raw.getD ""))
          :: Effect.sockEnd
          :: (runSock (decodeRaw (req.raw.getD "")) rest).1) ∧
    (∀ pre rest, env.sockEvs = pre ++ SockEv.closed :: rest →
      (∀ e ∈ pre, e = SockEv.connected) →
      (handlePrint req env).2
        = some { status := 200, success := true, mode := some "tcp",
                 message := some "Raw TCP sent to printer" }) ∧
    (∀ pre m rest, env.sockEvs = pre ++ SockEv.errored m :: rest →
      (∀ e ∈ pre, e = SockEv.connected) →
      (handlePrint req env).2 = some (errResp 500 m)) ∧
    (∀ r, (handlePrint req env).2 = some r → r.success = true →
      ∃ pre rest, env.sockEvs = pre ++ SockEv.closed :: rest
        ∧ ∀ e ∈ pre, e = SockEv.connected) := by
  have htr : (handlePrint req env).1
      = Effect.sockConnect (req.printerIp.getD "") 9100
        :: (runSock (decodeRaw (req.raw.getD "")) env.sockEvs).1 := by
    rcases ho : (runSock (decodeRaw (req.raw.getD "")) env.sockEvs).2 with _ | o
    · simp [handlePrint, printBody, hm, tcpBody, hip, hraw, ho]
    · cases o with
      | ok u => simp [handlePrint, printBody, hm, tcpBody, hip, hraw, ho]
      | error m => simp [handlePrint, printBody, hm, tcpBody, hip, hraw, ho]
  refine ⟨?_, ?_, ?_, ?_, ?_, ?_⟩
  · rw [htr, List.countP_cons]
    have h0 : (runSock (decodeRaw (req.raw.getD "")) env.sockEvs).1.countP
        (fun e => isConn e) = 0 := by
      rw [List.countP_eq_zero]
      intro e he
      simp [runSock_no_conn _ _ _ he]
    rw [h0]
    simp [isConn]
  · rw [htr]; rfl
  · intro rest hevs
    rw [htr, hevs]
    simp [runSock]
  · intro pre rest hevs hpre
    have ho : (runSock (decodeRaw (req.raw.getD "")) env.sockEvs).2
        = some (.ok ()) := by
      rw [hevs, runSock_snd_conn _ _ _ hpre]
      rfl
    simp [handlePrint, printBody, hm, tcpBody, hip, hraw, ho]
  · intro pre m rest hevs hpre
    have ho : (runSock (decodeRaw (req.raw.getD "")) env.sockEvs).2
        = some (.error m) := by
      rw [hevs, runSock_snd_conn _ _ _ hpre]
      rfl
    simp [handlePrint, printBody, hm, tcpBody, hip, hraw, ho, errResp]
  · intro r hr hsucc
    rcases ho : (runSock (decodeRaw (req.raw.getD "")) env.sockEvs).2 with _ | o
    · simp [handlePrint, printBody, hm, tcpBody, hip, hraw, ho] at hr
    · cases o with
      | ok u =>
        exact runSock_ok_closed _ _ ho
      | error m =>
        simp [handlePrint, printBody, hm, tcpBody, hip, hraw, ho] at hr
        rw [← hr] at hsucc
        simp [errResp] at hsucc

/-- Witness for C7: the stub peer accepts the connection and closes;
the dispatch reports success. -/
theorem tcp_socket_exchange_witness :
    ((Req.mk (some "tcp") none (some "10.0.0.5") none none
        (some "TEST")).mode.getD "os" = "tcp") ∧
    ((handlePrint (Req.mk (some "tcp") none (some "10.0.0.5") none none
          (some "TEST"))
        (Env.mk 0 (.resp true "OK" []) none true [.connected, .closed] none)).1.countP
      (fun e => isConn e) = 1) :=
  ⟨rfl,
   (tcp_socket_exchange (Req.mk (some "tcp") none (some "10.0.0.5") none none
      (some "TEST"))
     (Env.mk 0 (.resp true "OK" []) none true [.connected, .closed] none)
     rfl rfl rfl).1⟩

/-- Counterexample for C1: an OS-mode dispatch whose driver call
throws leaves its temporary file on the filesystem — the cleanup of
lines 110-114 runs only after a successful `print`, and the catch
block of lines 208-211 does not unlink.  Here the driver throws and
the file written for the job still exists after the dispatch. -/
theorem os_cleanup_counterexample :
    (handlePrint (Req.mk (some "os") none none none
        (some "data:application/pdf;base64,QQ==") none)
      (Env.mk 0 (.resp true "OK" []) (some "spool fail") true [] none)).2
      = some (errResp 500 "spool fail") ∧
    existsAfter (tmpPath 0)
      (handlePrint (Req.mk (some "os") none none none
          (some "data:application/pdf;base64,QQ==") none)
        (Env.mk 0 (.resp true "OK" []) (some "spool fail") true [] none)).1
      = true := by
  exact ⟨rfl, rfl⟩

/-- C1 amended: the temporary file of an OS-mode dispatch is removed
only on the success path — when the driver call returns normally (and
the best-effort unlink succeeds) the file no longer exists, but when
the driver call throws, the file (if one was created) is still on the
filesystem. -/
theorem os_cleanup_amended (req : Req) (env : Env)
    (hm : req.mode.getD "os" = "os") :
    (env.printErr = none → env.unlinkOk = true →
      existsAfter (tmpPath env.now) (handlePrint req env).1 = false) ∧
    (∀ m, env.printErr = some m →
      existsAfter (tmpPath env.now) (handlePrint req env).1
        = (handlePrint req env).1.any (fun e => isWrite e)) := by
  constructor
  · intro hp hu
    by_cases hb : truthy req.fileBase64
    · rcases hfind : findB64 (req.fileBase64.getD "").data with _ | rest
      · simp [handlePrint, printBody, hm, osBody, hb, hfind, existsAfter]
      · simp [handlePrint, printBody, hm, osBody, hb, hfind, osPrintPhase, hp, hu,
          existsAfter]
    · by_cases hu2 : truthy req.fileUrl
      · rcases hf : env.fetchRes with m | ⟨ok, st, body⟩
        · simp [handlePrint, printBody, hm, osBody, (Bool.not_eq_true _).mp hb, hu2,
            hf, existsAfter]
        · cases ok with
          | true =>
            simp [handlePrint, printBody, hm, osBody, (Bool.not_eq_true _).mp hb,
              hu2, hf, osPrintPhase, hp, hu, existsAfter]
          | false =>
            simp [handlePrint, printBody, hm, osBody, (Bool.not_eq_true _).mp hb,
              hu2, hf, existsAfter]
      · simp [handlePrint, printBody, hm, osBody, (Bool.not_eq_true _).mp hb,
          (Bool.not_eq_true _).mp hu2, existsAfter]
  · intro m hp
    by_cases hb : truthy req.fileBase64
    · rcases hfind : findB64 (req.fileBase64.getD "").data with _ | rest
      · simp [handlePrint, printBody, hm, osBody, hb, hfind, existsAfter]
      · simp [handlePrint, printBody, hm, osBody, hb, hfind, osPrintPhase, hp,
          existsAfter, isWrite]
    · by_cases hu2 : truthy req.fileUrl
      · rcases hf : env.fetchRes with m2 | ⟨ok, st, body⟩
        · simp [handlePrint, printBody, hm, osBody, (Bool.not_eq_true _).mp hb, hu2,
            hf, existsAfter, isWrite]
        · cases ok with
          | true =>
            simp [handlePrint, printBody, hm, osBody, (Bool.not_eq_true _).mp hb,
              hu2, hf, osPrintPhase, hp, existsAfter, isWrite]
          | false =>
            simp [handlePrint, printBody, hm, osBody, (Bool.not_eq_true _).mp hb,
              hu2, hf, existsAfter, isWrite]
      · simp [handlePrint, printBody, hm, osBody, (Bool.not_eq_true _).mp hb,
          (Bool.not_eq_true _).mp hu2, existsAfter, isWrite]

/-- Witness for C1 amended: on a successful OS dispatch the temporary
file is gone afterwards. -/
theorem os_cleanup_amended_witness :
    ((Req.mk (some "os") none none none
        (some "data:application/pdf;base64,QQ==") none).mode.getD "os" = "os") ∧
    (envOk.printErr = none → envOk.unlinkOk = true →
      existsAfter (tmpPath envOk.now)
        (handlePrint (Req.mk (some "os") none none none
            (some "data:application/pdf;base64,QQ==") none) envOk).1 = false) :=
  ⟨rfl,
   (os_cleanup_amended (Req.mk (some "os") none none none
      (some "data:application/pdf;base64,QQ==") none) envOk rfl).1⟩

/-- Counterexample for C3: an inline payload with no media-type prefix
and no delimiter (`base64,QQ==` instead of `<mime>;base64,<data>`) is
NOT rejected: the regex only looks for the substring `base64,`, so the
dispatch decodes the body and succeeds. -/
theorem inline_decode_counterexample :
    (handlePrint (Req.mk (some "os") none none none (some "base64,QQ==") none)
        envOk).2
      = some { status := 200, success := true, mode := some "os",
               message := some "Sent to OS print spooler" } ∧
    Effect.fileWrite (tmpPath 0) [65]
      ∈ (handlePrint (Req.mk (some "os") none none none (some "base64,QQ==") none)
          envOk).1 := by
  exact ⟨rfl, by decide⟩

/-- C3 amended: resolution of an inline `fileBase64` payload fails
(with the 400 invalid-payload response, before any I/O) exactly when
the string has no occurrence of the substring `base64,` whose suffix
is free of line terminators — the `<mime>;` prefix is not required —
and when a match exists the base64 body always decodes (Node's
decoder is total: characters outside the alphabet are skipped), the
decoded bytes becoming the temporary file in OS mode and the IPP
document in IPP mode. -/
theorem inline_decode_amended (s : String) (env : Env)
    (hs : truthy (some s) = true) :
    (findB64 s.data = none →
      handlePrint (Req.mk (some "os") none none none (some s) none) env
        = ([], some (errResp 400 "Invalid fileBase64 payload")) ∧
      handlePrint (Req.mk (some "ipp") none (some "10.0.0.9") none (some s) none) env
        = ([], some (errResp 400 "Invalid fileBase64"))) ∧
    (∀ rest, findB64 s.data = some rest →
      Effect.fileWrite (tmpPath env.now) (nodeDecode rest)
        ∈ (handlePrint (Req.mk (some "os") none none none (some s) none) env).1 ∧
      Effect.ippExecute ("http://" ++ "10.0.0.9" ++ ":631/ipp/print") (nodeDecode rest)
        ∈ (handlePrint (Req.mk (some "ipp") none (some "10.0.0.9") none
            (some s) none) env).1) := by
  have hs2 : s.isEmpty = false := by simpa [truthy] using hs
  have h9 : "10.0.0.9".isEmpty = false := rfl
  constructor
  · intro hfind
    constructor
    · simp [handlePrint, printBody, osBody, truthy, hs2, hfind, errResp]
    · simp [handlePrint, printBody, ippBody, truthy, hs2, hfind, errResp, h9]
  · intro rest hfind
    constructor
    · cases hp : env.printErr with
      | none =>
        simp [handlePrint, printBody, osBody, truthy, hs2, hfind, osPrintPhase, hp]
      | some m =>
        simp [handlePrint, printBody, osBody, truthy, hs2, hfind, osPrintPhase, hp]
    · cases hi : env.ippErr with
      | none =>
        simp [handlePrint, printBody, ippBody, truthy, hs2, hfind, ippSend, hi, h9]
      | some m =>
        simp [handlePrint, printBody, ippBody, truthy, hs2, hfind, ippSend, hi, h9]

/-- Witness for C3 amended: a well-formed inline payload decodes and
is written to the temporary file. -/
theorem inline_decode_amended_witness :
    (truthy (some "data:application/pdf;base64,JVBERi0x") = true) ∧
    (∀ rest, findB64 "data:application/pdf;base64,JVBERi0x".data = some rest →
      Effect.fileWrite (tmpPath envOk.now) (nodeDecode rest)
        ∈ (handlePrint (Req.mk (some "os") none none none
            (some "data:application/pdf;base64,JVBERi0x") none) envOk).1 ∧
      Effect.ippExecute ("http://" ++ "10.0.0.9" ++ ":631/ipp/print") (nodeDecode rest)
        ∈ (handlePrint (Req.mk (some "ipp") none (some "10.0.0.9") none
            (some "data:application/pdf;base64,JVBERi0x") none) envOk).1) :=
  ⟨rfl,
   (inline_decode_amended "data:application/pdf;base64,JVBERi0x" envOk rfl).2⟩

/-- Counterexample for C4: in IPP mode a non-success fetch status
yields the fixed message `Failed to fetch fileUrl`, which does not
carry the response's status description — two different statuses
produce identical failure responses (though indeed no IPP exchange is
attempted). -/
theorem fetch_fail_msg_counterexample :
    (handlePrint (Req.mk (some "ipp") none (some "10.0.0.9")
        (some "http://bad.example/x.pdf") none none)
      (Env.mk 0 (.resp false "Not Found" []) none true [] none)).2
      = some (errResp 500 "Failed to fetch fileUrl") ∧
    (handlePrint (Req.mk (some "ipp") none (some "10.0.0.9")
        (some "http://bad.example/x.pdf") none none)
      (Env.mk 0 (.resp false "Bad Gateway" []) none true [] none))
      = (handlePrint (Req.mk (some "ipp") none (some "10.0.0.9")
          (some "http://bad.example/x.pdf") none none)
        (Env.mk 0 (.resp false "Not Found" []) none true [] none)) ∧
    ((handlePrint (Req.mk (some "ipp") none (some "10.0.0.9")
        (some "http://bad.example/x.pdf") none none)
      (Env.mk 0 (.resp false "Not Found" []) none true [] none)).1.all
      (fun e => !isIpp e) = true) := by
  exact ⟨rfl, rfl, rfl⟩

/-- C4 amended: a non-success fetch status makes the dispatch fail
with a caught 500 whose message carries the response's status
description in OS mode (`Failed to fetch file: <statusText>`), but in
IPP mode the fixed message `Failed to fetch fileUrl` without the
status; in both modes the trace stops at the fetch, so no temporary
file is written and no IPP exchange is attempted. -/
theorem fetch_fail_amended (req : Req) (env : Env) (st : String) (body : List Nat)
    (hf : env.fetchRes = .resp false st body) :
    (req.mode.getD "os" = "os" → truthy req.fileBase64 = false →
      truthy req.fileUrl = true →
      handlePrint req env
        = ([.fetch (req.fileUrl.getD "")],
           some (errResp 500 ("Failed to fetch file: " ++ st)))) ∧
    (req.mode.getD "os" = "ipp" → truthy req.printerIp = true →
      truthy req.fileBase64 = false → truthy req.fileUrl = true →
      handlePrint req env
        = ([.fetch (req.fileUrl.getD "")],
           some (errResp 500 "Failed to fetch fileUrl"))) := by
  constructor
  · intro hm hb hu
    simp [handlePrint, printBody, hm, osBody, hb, hu, hf]
  · intro hm hip hb hu
    simp [handlePrint, printBody, hm, ippBody, hip, hb, hu, hf]

/-- Witness for C4 amended: the spec's concrete scenario 3 (IPP mode,
fetch answers 404 Not Found). -/
theorem fetch_fail_amended_witness :
    ((Env.mk 0 (.resp false "Not Found" []) none true [] none).fetchRes
      = .resp false "Not Found" []) ∧
    ((Req.mk (some "ipp") none (some "10.0.0.9")
        (some "http://bad.example/x.pdf") none none).mode.getD "os" = "ipp" →
      truthy (Req.mk (some "ipp") none (some "10.0.0.9")
        (some "http://bad.example/x.pdf") none none).printerIp = true →
      truthy (Req.mk (some "ipp") none (some "10.0.0.9")
        (some "http://bad.example/x.pdf") none none).fileBase64 = false →
      truthy (Req.mk (some "ipp") none (some "10.0.0.9")
        (some "http://bad.example/x.pdf") none none).fileUrl = true →
      handlePrint (Req.mk (some "ipp") none (some "10.0.0.9")
          (some "http://bad.example/x.pdf") none none)
        (Env.mk 0 (.resp false "Not Found" []) none true [] none)
        = ([.fetch ((Req.mk (some "ipp") none (some "10.0.0.9")
              (some "http://bad.example/x.pdf") none none).fileUrl.getD "")],
           some (errResp 500 "Failed to fetch fileUrl"))) :=
  ⟨rfl,
   (fetch_fail_amended (Req.mk (some "ipp") none (some "10.0.0.9")
      (some "http://bad.example/x.pdf") none none)
     (Env.mk 0 (.resp false "Not Found" []) none true [] none)
     "Not Found" [] rfl).2⟩

theorem dC_eC : ∀ n < 64, dC (eC n) = some n := by decide

theorem eC_notLT : ∀ n < 64, isLineTerm (eC n) = false := by decide

theorem dC_pad : dC '=' = none := by decide

theorem noLT_enc : ∀ l : List Nat, (∀ x ∈ l, x < 256) → noLT (b64enc l) = true := by
  intro l
  induction l using b64enc.induct with
  | case1 a b c rest ih =>
    intro h
    have ha : a < 256 := h a (by simp)
    have hb : b < 256 := h b (by simp)
    have hc : c < 256 := h c (by simp)
    simp only [b64enc, noLT, List.all_cons, Bool.and_eq_true]
    refine ⟨?_, ?_, ?_, ?_, ?_⟩
    · simp [eC_notLT _ (by omega : a / 4 < 64)]
    · simp [eC_notLT _ (by omega : (a % 4) * 16 + b / 16 < 64)]
    · simp [eC_notLT _ (by omega : (b % 16) * 4 + c / 64 < 64)]
    · simp [eC_notLT _ (by omega : c % 64 < 64)]
    · have := ih (fun x hx => h x (by simp [hx]))
      simpa [noLT] using this
  | case2 a =>
    intro h
    have ha : a < 256 := h a (by simp)
    simp only [b64enc, noLT, List.all_cons, List.all_nil, Bool.and_eq_true]
    refine ⟨?_, ?_, ?_, ?_, trivial⟩
    · simp [eC_notLT _ (by omega : a / 4 < 64)]
    · simp [eC_notLT _ (by omega : (a % 4) * 16 < 64)]
    · decide
    · decide
  | case3 a b =>
    intro h
    have ha : a < 256 := h a (by simp)
    have hb : b < 256 := h b (by simp)
    simp only [b64enc, noLT, List.all_cons, List.all_nil, Bool.and_eq_true]
    refine ⟨?_, ?_, ?_, ?_, trivial⟩
    · simp [eC_notLT _ (by omega : a / 4 < 64)]
    · simp [eC_notLT _ (by omega : (a % 4) * 16 + b / 16 < 64)]
    · simp [eC_notLT _ (by omega : (b % 16) * 4 < 64)]
    · decide
  | case4 =>
    intro _
    decide

theorem dec_enc : ∀ l : List Nat, (∀ x ∈ l, x < 256) →
    b64dec ((b64enc l).filterMap dC) = l := by
  intro l
  induction l using b64enc.induct with
  | case1 a b c rest ih =>
    intro h
    have ha : a < 256 := h a (by simp)
    have hb : b < 256 := h b (by simp)
    have hc : c < 256 := h c (by simp)
    simp only [b64enc]
    rw [List.filterMap_cons_some (dC_eC _ (by omega)),
      List.filterMap_cons_some (dC_eC _ (by omega)),
      List.filterMap_cons_some (dC_eC _ (by omega)),
      List.filterMap_cons_some (dC_eC _ (by omega))]
    simp only [b64dec]
    rw [ih (fun x hx => h x (by simp [hx]))]
    simp only [List.cons.injEq]
    refine ⟨by omega, by omega, by omega, trivial⟩
  | case2 a =>
    intro h
    have ha : a < 256 := h a (by simp)
    simp only [b64enc]
    rw [List.filterMap_cons_some (dC_eC _ (by omega)),
      List.filterMap_cons_some (dC_eC _ (by omega)),
      List.filterMap_cons_none dC_pad,
      List.filterMap_cons_none dC_pad]
    simp only [List.filterMap_nil, b64dec]
    simp only [List.cons.injEq]
    refine ⟨by omega, trivial⟩
  | case3 a b =>
    intro h
    have ha : a < 256 := h a (by simp)
    have hb : b < 256 := h b (by simp)
    simp only [b64enc]
    rw [List.filterMap_cons_some (dC_eC _ (by omega)),
      List.filterMap_cons_some (dC_eC _ (by omega)),
      List.filterMap_cons_some (dC_eC _ (by omega)),
      List.filterMap_cons_none dC_pad]
    simp only [List.filterMap_nil, b64dec]
    simp only [List.cons.injEq]
    refine ⟨by omega, by omega, trivial⟩
  | case4 =>
    intro _
    rfl

theorem findB64_cons_ne (c : Char) (cs : List Char)
    (h : decide ((c :: cs).take 7 = "base64,".data) = false) :
    findB64 (c :: cs) = findB64 cs := by
  simp only [findB64]
  rw [if_neg (fun hc => absurd hc.1 (of_decide_eq_false h))]

theorem findB64_cons_eq (c : Char) (cs : List Char)
    (h1 : (c :: cs).take 7 = "base64,".data)
    (h2 : noLT ((c :: cs).drop 7) = true) :
    findB64 (c :: cs) = some ((c :: cs).drop 7) := by
  simp only [findB64]
  rw [if_pos ⟨h1, h2⟩]

theorem findB64_concat (B : List Char) (h : noLT B = true) :
    findB64 ("application/pdf;base64,".data ++ B) = some B := by
  have e : "application/pdf;base64,".data ++ B
      = 'a' :: 'p' :: 'p' :: 'l' :: 'i' :: 'c' :: 'a' :: 't' :: 'i' :: 'o' :: 'n' :: '/' :: 'p' :: 'd' :: 'f' :: ';' :: 'b' :: 'a' :: 's' :: 'e' :: '6' :: '4' :: ',' :: B := rfl
  rw [e]
  have h0 : findB64 ('a' :: 'p' :: 'p' :: 'l' :: 'i' :: 'c' :: 'a' :: 't' :: 'i' :: 'o' :: 'n' :: '/' :: 'p' :: 'd' :: 'f' :: ';' :: 'b' :: 'a' :: 's' :: 'e' :: '6' :: '4' :: ',' :: B)
      = findB64 ('p' :: 'p' :: 'l' :: 'i' :: 'c' :: 'a' :: 't' :: 'i' :: 'o' :: 'n' :: '/' :: 'p' :: 'd' :: 'f' :: ';' :: 'b' :: 'a' :: 's' :: 'e' :: '6' :: '4' :: ',' :: B) :=
    findB64_cons_ne _ _ rfl
  have h1 : findB64 ('p' :: 'p' :: 'l' :: 'i' :: 'c' :: 'a' :: 't' :: 'i' :: 'o' :: 'n' :: '/' :: 'p' :: 'd' :: 'f' :: ';' :: 'b' :: 'a' :: 's' :: 'e' :: '6' :: '4' :: ',' :: B)
      = findB64 ('p' :: 'l' :: 'i' :: 'c' :: 'a' :: 't' :: 'i' :: 'o' :: 'n' :: '/' :: 'p' :: 'd' :: 'f' :: ';' :: 'b' :: 'a' :: 's' :: 'e' :: '6' :: '4' :: ',' :: B) :=
    findB64_cons_ne _ _ rfl
  have h2 : findB64 ('p' :: 'l' :: 'i' :: 'c' :: 'a' :: 't' :: 'i' :: 'o' :: 'n' :: '/' :: 'p' :: 'd' :: 'f' :: ';' :: 'b' :: 'a' :: 's' :: 'e' :: '6' :: '4' :: ',' :: B)
      = findB64 ('l' :: 'i' :: 'c' :: 'a' :: 't' :: 'i' :: 'o' :: 'n' :: '/' :: 'p' :: 'd' :: 'f' :: ';' :: 'b' :: 'a' :: 's' :: 'e' :: '6' :: '4' :: ',' :: B) :=
    findB64_cons_ne _ _ rfl
  have h3 : findB64 ('l' :: 'i' :: 'c' :: 'a' :: 't' :: 'i' :: 'o' :: 'n' :: '/' :: 'p' :: 'd' :: 'f' :: ';' :: 'b' :: 'a' :: 's' :: 'e' :: '6' :: '4' :: ',' :: B)
      = findB64 ('i' :: 'c' :: 'a' :: 't' :: 'i' :: 'o' :: 'n' :: '/' :: 'p' :: 'd' :: 'f' :: ';' :: 'b' :: 'a' :: 's' :: 'e' :: '6' :: '4' :: ',' :: B) :=
    findB64_cons_ne _ _ rfl
  have h4 : findB64 ('i' :: 'c' :: 'a' :: 't' :: 'i' :: 'o' :: 'n' :: '/' :: 'p' :: 'd' :: 'f' :: ';' :: 'b' :: 'a' :: 's' :: 'e' :: '6' :: '4' :: ',' :: B)
      = findB64 ('c' :: 'a' :: 't' :: 'i' :: 'o' :: 'n' :: '/' :: 'p' :: 'd' :: 'f' :: ';' :: 'b' :: 'a' :: 's' :: 'e' :: '6' :: '4' :: ',' :: B) :=
    findB64_cons_ne _ _ rfl
  have h5 : findB64 ('c' :: 'a' :: 't' :: 'i' :: 'o' :: 'n' :: '/' :: 'p' :: 'd' :: 'f' :: ';' :: 'b' :: 'a' :: 's' :: 'e' :: '6' :: '4' :: ',' :: B)
      = findB64 ('a' :: 't' :: 'i' :: 'o' :: 'n' :: '/' :: 'p' :: 'd' :: 'f' :: ';' :: 'b' :: 'a' :: 's' :: 'e' :: '6' :: '4' :: ',' :: B) :=
    findB64_cons_ne _ _ rfl
  have h6 : findB64 ('a' :: 't' :: 'i' :: 'o' :: 'n' :: '/' :: 'p' :: 'd' :: 'f' :: ';' :: 'b' :: 'a' :: 's' :: 'e' :: '6' :: '4' :: ',' :: B)
      = findB64 ('t' :: 'i' :: 'o' :: 'n' :: '/' :: 'p' :: 'd' :: 'f' :: ';' :: 'b' :: 'a' :: 's' :: 'e' :: '6' :: '4' :: ',' :: B) :=
    findB64_cons_ne _ _ rfl
  have h7 : findB64 ('t' :: 'i' :: 'o' :: 'n' :: '/' :: 'p' :: 'd' :: 'f' :: ';' :: 'b' :: 'a' :: 's' :: 'e' :: '6' :: '4' :: ',' :: B)
      = findB64 ('i' :: 'o' :: 'n' :: '/' :: 'p' :: 'd' :: 'f' :: ';' :: 'b' :: 'a' :: 's' :: 'e' :: '6' :: '4' :: ',' :: B) :=
    findB64_cons_ne _ _ rfl
  have h8 : findB64 ('i' :: 'o' :: 'n' :: '/' :: 'p' :: 'd' :: 'f' :: ';' :: 'b' :: 'a' :: 's' :: 'e' :: '6' :: '4' :: ',' :: B)
      = findB64 ('o' :: 'n' :: '/' :: 'p' :: 'd' :: 'f' :: ';' :: 'b' :: 'a' :: 's' :: 'e' :: '6' :: '4' :: ',' :: B) :=
    findB64_cons_ne _ _ rfl
  have h9 : findB64 ('o' :: 'n' :: '/' :: 'p' :: 'd' :: 'f' :: ';' :: 'b' :: 'a' :: 's' :: 'e' :: '6' :: '4' :: ',' :: B)
      = findB64 ('n' :: '/' :: 'p' :: 'd' :: 'f' :: ';' :: 'b' :: 'a' :: 's' :: 'e' :: '6' :: '4' :: ',' :: B) :=
    findB64_cons_ne _ _ rfl
  have h10 : findB64 ('n' :: '/' :: 'p' :: 'd' :: 'f' :: ';' :: 'b' :: 'a' :: 's' :: 'e' :: '6' :: '4' :: ',' :: B)
      = findB64 ('/' :: 'p' :: 'd' :: 'f' :: ';' :: 'b' :: 'a' :: 's' :: 'e' :: '6' :: '4' :: ',' :: B) :=
    findB64_cons_ne _ _ rfl
  have h11 : findB64 ('/' :: 'p' :: 'd' :: 'f' :: ';' :: 'b' :: 'a' :: 's' :: 'e' :: '6' :: '4' :: ',' :: B)
      = findB64 ('p' :: 'd' :: 'f' :: ';' :: 'b' :: 'a' :: 's' :: 'e' :: '6' :: '4' :: ',' :: B) :=
    findB64_cons_ne _ _ rfl
  have h12 : findB64 ('p' :: 'd' :: 'f' :: ';' :: 'b' :: 'a' :: 's' :: 'e' :: '6' :: '4' :: ',' :: B)
      = findB64 ('d' :: 'f' :: ';' :: 'b' :: 'a' :: 's' :: 'e' :: '6' :: '4' :: ',' :: B) :=
    findB64_cons_ne _ _ rfl
  have h13 : findB64 ('d' :: 'f' :: ';' :: 'b' :: 'a' :: 's' :: 'e' :: '6' :: '4' :: ',' :: B)
      = findB64 ('f' :: ';' :: 'b' :: 'a' :: 's' :: 'e' :: '6' :: '4' :: ',' :: B) :=
    findB64_cons_ne _ _ rfl
  have h14 : findB64 ('f' :: ';' :: 'b' :: 'a' :: 's' :: 'e' :: '6' :: '4' :: ',' :: B)
      = findB64 (';' :: 'b' :: 'a' :: 's' :: 'e' :: '6' :: '4' :: ',' :: B) :=
    findB64_cons_ne _ _ rfl
  have h15 : findB64 (';' :: 'b' :: 'a' :: 's' :: 'e' :: '6' :: '4' :: ',' :: B)
      = findB64 ('b' :: 'a' :: 's' :: 'e' :: '6' :: '4' :: ',' :: B) :=
    findB64_cons_ne _ _ rfl
  rw [h0]
  rw [h1]
  rw [h2]
  rw [h3]
  rw [h4]
  rw [h5]
  rw [h6]
  rw [h7]
  rw [h8]
  rw [h9]
  rw [h10]
  rw [h11]
  rw [h12]
  rw [h13]
  rw [h14]
  rw [h15]
  exact findB64_cons_eq _ _ rfl h

/-- Counterexample for C6: for the base64 string `QQ` (valid but not
canonically padded), the inline payload `application/pdf;base64,QQ`
resolves to the byte `0x41` as the claim says, but re-encoding that
byte yields `QQ==`, not `QQ` — the re-encoding half of the round trip
fails. -/
theorem roundtrip_counterexample :
    findB64 "application/pdf;base64,QQ".data = some "QQ".data ∧
    nodeDecode "QQ".data = [65] ∧
    b64enc (nodeDecode "QQ".data) ≠ "QQ".data := by
  refine ⟨by decide, by decide, by decide⟩

/-- C6 amended: the round trip holds for canonical encodings — for
every byte sequence `l`, with `B := b64enc l` (the canonical padded
base64 of `l`), the inline payload `application/pdf;base64,B` resolves
to exactly the bytes `l`, and re-encoding the resolved bytes
reproduces `B`; for a non-canonical base64 string only the decoding
half holds. -/
theorem roundtrip_amended (l : List Nat) (hl : ∀ x ∈ l, x < 256) :
    findB64 ("application/pdf;base64,".data ++ b64enc l) = some (b64enc l) ∧
    nodeDecode (b64enc l) = l ∧
    b64enc (nodeDecode (b64enc l)) = b64enc l := by
  have h2 : nodeDecode (b64enc l) = l := dec_enc l hl
  exact ⟨findB64_concat _ (noLT_enc l hl), h2, by rw [h2]⟩

/-- Witness for C6 amended at the spec's scenario-1 bytes `%PDF-1`
(whose canonical encoding is `JVBERi0x`). -/
theorem roundtrip_amended_witness :
    (∀ x ∈ [37, 80, 68, 70, 45, 49], x < 256) ∧
    (findB64 ("application/pdf;base64,".data ++ b64enc [37, 80, 68, 70, 45, 49])
        = some (b64enc [37, 80, 68, 70, 45, 49]) ∧
      nodeDecode (b64enc [37, 80, 68, 70, 45, 49]) = [37, 80, 68, 70, 45, 49] ∧
      b64enc (nodeDecode (b64enc [37, 80, 68, 70, 45, 49]))
        = b64enc [37, 80, 68, 70, 45, 49]) :=
  ⟨by decide, roundtrip_amended [37, 80, 68, 70, 45, 49] (by decide)⟩

theorem digitChar_val : ∀ n < 10, (Nat.digitChar n).toNat - 48 = n := by decide

theorem repChars_toDigitsCore :
    ∀ fuel n l, n < fuel → Nat.toDigitsCore 10 fuel n l = repChars n ++ l := by
  intro fuel
  induction fuel with
  | zero => intro n l h; omega
  | succ f ih =>
    intro n l h
    by_cases h10 : n / 10 = 0
    · have hn : n < 10 := by omega
      simp only [Nat.toDigitsCore]
      rw [if_pos h10, repChars, dif_pos hn, Nat.mod_eq_of_lt hn]
      rfl
    · simp only [Nat.toDigitsCore]
      rw [if_neg h10, ih (n / 10) _ (by omega)]
      conv_rhs => rw [repChars]
      rw [dif_neg (by omega : ¬n < 10), List.append_assoc]
      rfl

theorem repr_eq_repChars (n : Nat) : Nat.repr n = (repChars n).asString := by
  show (Nat.toDigits 10 n).asString = _
  rw [Nat.toDigits, repChars_toDigitsCore (n + 1) n [] (by omega), List.append_nil]

theorem parse_repChars :
    ∀ n a, (repChars n).foldl (fun acc c => acc * 10 + (c.toNat - 48)) a
      = a * 10 ^ (repChars n).length + n := by
  intro n
  induction n using Nat.strong_induction_on with
  | _ n ih =>
    intro a
    by_cases h : n < 10
    · rw [repChars, dif_pos h]
      simp only [List.foldl_cons, List.foldl_nil, List.length_cons,
        List.length_nil, digitChar_val n h]
      rw [pow_one]
    · have h1 : n / 10 < n := Nat.div_lt_self (by omega) (by omega)
      rw [repChars, dif_neg h, List.foldl_append, ih (n / 10) h1 a]
      simp only [List.foldl_cons, List.foldl_nil, List.length_append,
        List.length_cons, List.length_nil, digitChar_val (n % 10) (by omega)]
      generalize (repChars (n / 10)).length = L
      rw [show L + (0 + 1) = L + 1 from by omega, pow_succ, ← mul_assoc]
      generalize a * 10 ^ L = Q
      omega

theorem repChars_injective {m n : Nat} (h : repChars m = repChars n) : m = n := by
  have hm := parse_repChars m 0
  have hn := parse_repChars n 0
  rw [h] at hm
  omega

theorem repr_injective {m n : Nat} (h : Nat.repr m = Nat.repr n) : m = n := by
  rw [repr_eq_repChars, repr_eq_repChars] at h
  exact repChars_injective (List.asString_inj.mp h)

theorem tmpPath_injective {t1 t2 : Nat} (h : tmpPath t1 = tmpPath t2) : t1 = t2 := by
  apply repr_injective
  unfold tmpPath at h
  have h2 := congrArg String.data h
  simp only [String.data_append] at h2
  have h3 := List.append_cancel_right h2
  have h4 := List.append_cancel_left h3
  exact congrArg String.mk h4

/-- Counterexample for C8: two distinct OS-mode dispatch calls that
observe the same `Date.now()` millisecond write to the SAME temporary
file `tmp/print-42.pdf` — the name is not unique per call, so
concurrent jobs in one millisecond share a file. -/
theorem tmp_name_counterexample :
    (Req.mk (some "os") none none none (some "base64,QQ==") none
      ≠ Req.mk (some "os") none none none (some "base64,RR==") none) ∧
    Effect.fileWrite (tmpPath 42) (nodeDecode "QQ==".data)
      ∈ (handlePrint (Req.mk (some "os") none none none (some "base64,QQ==") none)
          (Env.mk 42 (.resp true "OK" []) none true [] none)).1 ∧
    Effect.fileWrite (tmpPath 42) (nodeDecode "RR==".data)
      ∈ (handlePrint (Req.mk (some "os") none none none (some "base64,RR==") none)
          (Env.mk 42 (.resp true "OK" []) none true [] none)).1 := by
  refine ⟨by decide, by decide, by decide⟩

/-- C8 amended: the temporary file name is `print-<t>.pdf` where `t`
is the `Date.now()` value the call observes: every file an OS-mode
dispatch writes is at `tmpPath env.now`, and two calls observing
distinct timestamps use distinct names — but calls within the same
millisecond share the same name (see the counterexample). -/
theorem tmp_name_amended (t1 t2 : Nat) (h : t1 ≠ t2) :
    tmpPath t1 ≠ tmpPath t2 ∧
    (∀ (req : Req) (env : Env) (p : String) (b : List Nat),
      req.mode.getD "os" = "os" →
      Effect.fileWrite p b ∈ (handlePrint req env).1 → p = tmpPath env.now) := by
  constructor
  · exact fun he => h (tmpPath_injective he)
  · intro req env p b hm hmem
    by_cases hb : truthy req.fileBase64
    · rcases hfind : findB64 (req.fileBase64.getD "").data with _ | rest
      · simp [handlePrint, printBody, hm, osBody, hb, hfind] at hmem
      · cases hp : env.printErr with
        | none =>
          simp [handlePrint, printBody, hm, osBody, hb, hfind, osPrintPhase, hp]
            at hmem
          exact hmem.1
        | some m =>
          simp [handlePrint, printBody, hm, osBody, hb, hfind, osPrintPhase, hp]
            at hmem
          exact hmem.1
    · by_cases hu2 : truthy req.fileUrl
      · rcases hf : env.fetchRes with m | ⟨ok, st, body⟩
        · simp [handlePrint, printBody, hm, osBody, (Bool.not_eq_true _).mp hb,
            hu2, hf] at hmem
        · cases ok with
          | true =>
            cases hp : env.printErr with
            | none =>
              simp [handlePrint, printBody, hm, osBody, (Bool.not_eq_true _).mp hb,
                hu2, hf, osPrintPhase, hp] at hmem
              exact hmem.1
            | some m2 =>
              simp [handlePrint, printBody, hm, osBody, (Bool.not_eq_true _).mp hb,
                hu2, hf, osPrintPhase, hp] at hmem
              exact hmem.1
          | false =>
            simp [handlePrint, printBody, hm, osBody, (Bool.not_eq_true _).mp hb,
              hu2, hf] at hmem
      · simp [handlePrint, printBody, hm, osBody, (Bool.not_eq_true _).mp hb,
          (Bool.not_eq_true _).mp hu2] at hmem

/-- Witness for C8 amended: timestamps 0 and 1 give distinct file
names. -/
theorem tmp_name_amended_witness :
    (0 : Nat) ≠ 1 ∧
    (tmpPath 0 ≠ tmpPath 1 ∧
      (∀ (req : Req) (env : Env) (p : String) (b : List Nat),
        req.mode.getD "os" = "os" →
        Effect.fileWrite p b ∈ (handlePrint req env).1 → p = tmpPath env.now)) :=
  ⟨by decide, tmp_name_amended 0 1 (by decide)⟩
